import Mathlib

/-!
GLM log-likelihood and its derivative (shogun, `src/shogun/regression/GLM.cpp`).

A shallow embedding of `GLM::log_likelihood` and `GLM::log_likelihood_derivative`.

* Scalars (`float64_t`) are an arbitrary field `α` together with two functions
  `exp log : α → α`; the theorems instantiate `α := ℝ`, `exp := Real.exp`,
  `log := Real.log`.  Rounding, overflow and underflow of IEEE doubles are not
  part of the embedding.
* Every operation that can raise a `ShogunException` returns `Except`.
* The containers (`SGVector`, `SGMatrix`, `DenseFeatures`, `Labels`), the
  `ASSERT` macro and the `linalg::` primitives are not defined in `GLM.cpp`;
  they are modelled below, each marked as such.
-/

namespace shogun

/-- The ways a call can fail. -/
inductive ShogunException where
  /-- An `ASSERT` on the arguments failed. -/
  | InvalidArgument
  /-- A `linalg::` primitive was given operands of different dimensions. -/
  | DimensionMismatch
  /-- An element access outside `0 .. len-1`. -/
  | IndexOutOfRange
  deriving DecidableEq, Repr

/-- Modelled from the spec: the `ASSERT` macro is defined outside `GLM.cpp`.
A violated assertion fails with an InvalidArgument error. -/
def ASSERT (cond : Bool) : Except ShogunException Unit :=
  if cond then .ok () else .error .InvalidArgument

/-- Modelled from the spec: `SGVector<T>` is declared outside `GLM.cpp`.
A dense vector; `vlen` is the length of the list. -/
abbrev SGVector (α : Type) := List α

namespace SGVector

variable {α : Type}

/-- The number of elements, `vlen`. -/
def vlen (v : SGVector α) : Nat := v.length

/-- Modelled from the spec: the constructor `SGVector<T>(len)`; the slots of a
fresh vector hold the default value zero. -/
def create [Zero α] (len : Nat) : SGVector α := List.replicate len 0

/-- Modelled from the spec: `SGVector::set_element(el, index)`, with `index` in range. -/
def set_element (v : SGVector α) (el : α) (index : Nat) :
    Except ShogunException (SGVector α) :=
  if index < v.vlen then .ok (v.set index el) else .error .IndexOutOfRange

/-- Modelled from the spec: `SGVector::get_element(index)`, with `index` in range. -/
def get_element (v : SGVector α) (index : Nat) : Except ShogunException α :=
  match v.get? index with
  | some x => .ok x
  | none => .error .IndexOutOfRange

end SGVector

/-- Modelled from the spec: `SGMatrix<T>` is declared outside `GLM.cpp`.
A dense `num_rows × num_cols` matrix; `matrix r c` is the entry in row `r`,
column `c`, read only for `r < num_rows` and `c < num_cols`. -/
structure SGMatrix (α : Type) where
  num_rows : Nat
  num_cols : Nat
  matrix : Nat → Nat → α

namespace SGMatrix

variable {α : Type}

/-- Modelled from the spec: the constructor `SGMatrix<T>(num_rows, num_cols)`. -/
def create [Zero α] (num_rows num_cols : Nat) : SGMatrix α :=
  ⟨num_rows, num_cols, fun _ _ => 0⟩

/-- Modelled from the spec: the constructor `SGMatrix<T>(vec, nrows, ncols)`, the
vector's elements read in column-major order. -/
def of_vector [Zero α] (vec : SGVector α) (nrows ncols : Nat) :
    Except ShogunException (SGMatrix α) :=
  if vec.vlen = nrows * ncols then
    .ok ⟨nrows, ncols, fun r c => vec.getD (c * nrows + r) 0⟩
  else .error .DimensionMismatch

/-- Modelled from the spec: the conversion `SGVector(matrix)`, the matrix's
elements in column-major order. -/
def to_vector (m : SGMatrix α) : SGVector α :=
  (List.range (m.num_rows * m.num_cols)).map
    (fun k => m.matrix (k % m.num_rows) (k / m.num_rows))

/-- Modelled from the spec: `SGMatrix::get_element(row, col)`, with the indices in range. -/
def get_element (m : SGMatrix α) (row col : Nat) : Except ShogunException α :=
  if row < m.num_rows ∧ col < m.num_cols then .ok (m.matrix row col)
  else .error .IndexOutOfRange

end SGMatrix

/-- Modelled from the spec: `DenseFeatures<T>` is declared outside `GLM.cpp`.
N feature vectors of dimension D, the columns of a `D × N` matrix. -/
structure DenseFeatures (α : Type) where
  feature_matrix : SGMatrix α

namespace DenseFeatures

variable {α : Type}

def get_num_vectors (f : DenseFeatures α) : Nat := f.feature_matrix.num_cols

def get_num_features (f : DenseFeatures α) : Nat := f.feature_matrix.num_rows

def get_feature_matrix (f : DenseFeatures α) : SGMatrix α := f.feature_matrix

/-- Modelled from the spec: `get_feature_vector(num)`, column `num` of the matrix. -/
def get_feature_vector (f : DenseFeatures α) (num : Nat) :
    Except ShogunException (SGVector α) :=
  if num < f.get_num_vectors then
    .ok ((List.range f.get_num_features).map (fun k => f.feature_matrix.matrix k num))
  else .error .IndexOutOfRange

end DenseFeatures

/-- Modelled from the spec: `Labels` is declared outside `GLM.cpp`.
Real-valued targets, one per feature vector. -/
structure Labels (α : Type) where
  values : SGVector α

namespace Labels

variable {α : Type}

def get_num_labels (l : Labels α) : Nat := l.values.vlen

def get_values (l : Labels α) : SGVector α := l.values

end Labels

/-! The `linalg::` primitives used by `GLM.cpp` -/

namespace linalg

variable {α : Type} [Field α]

/-- Modelled from the spec: `linalg::dot(a, b)`, the sum of `a_k * b_k`, for
vectors of the same length. -/
def dot (a b : SGVector α) : Except ShogunException α :=
  if a.vlen = b.vlen then .ok (List.zipWith (fun x y => x * y) a b).sum
  else .error .DimensionMismatch

/-- Modelled from the spec: `linalg::element_prod(a, b)` on vectors of the same length. -/
def element_prod (a b : SGVector α) : Except ShogunException (SGVector α) :=
  if a.vlen = b.vlen then .ok (List.zipWith (fun x y => x * y) a b)
  else .error .DimensionMismatch

/-- Modelled from the spec: `linalg::add(a, b, alpha, beta)`, the vector
`alpha * a + beta * b`, for vectors of the same length. -/
def add (a b : SGVector α) (alpha beta : α) : Except ShogunException (SGVector α) :=
  if a.vlen = b.vlen then .ok (List.zipWith (fun x y => alpha * x + beta * y) a b)
  else .error .DimensionMismatch

/-- Modelled from the spec: `linalg::sum(vec)`. -/
def sum (a : SGVector α) : α := List.sum a

/-- Modelled from the spec: `linalg::sum(mat)`, the sum of all entries. -/
def sum_matrix (a : SGMatrix α) : α :=
  ((List.range a.num_cols).map (fun c =>
    ((List.range a.num_rows).map (fun r => a.matrix r c)).sum)).sum

/-- Modelled from the spec: `linalg::matrix_prod(A, B)`, defined when the number
of columns of `A` is the number of rows of `B`. -/
def matrix_prod (A B : SGMatrix α) : Except ShogunException (SGMatrix α) :=
  if A.num_cols = B.num_rows then
    .ok ⟨A.num_rows, B.num_cols, fun r c =>
      ((List.range A.num_cols).map (fun k => A.matrix r k * B.matrix k c)).sum⟩
  else .error .DimensionMismatch

/-- Modelled from the spec: `linalg::add_scalar(a, b)`, adding `b` to every entry. -/
def add_scalar (a : SGMatrix α) (b : α) : SGMatrix α :=
  ⟨a.num_rows, a.num_cols, fun r c => a.matrix r c + b⟩

/-- Modelled from the spec: `linalg::logistic(a, result)`, the entries
`1 / (1 + exp(-a))` written into `result`, a matrix of the same shape. -/
def logistic (exp : α → α) (a result : SGMatrix α) : Except ShogunException (SGMatrix α) :=
  if a.num_rows = result.num_rows ∧ a.num_cols = result.num_cols then
    .ok ⟨result.num_rows, result.num_cols, fun r c => 1 / (1 + exp (-(a.matrix r c)))⟩
  else .error .DimensionMismatch

end linalg

/-- The state of the enclosing `LinearMachine` read by the evaluators
(`get_w()`, `get_bias()`) and the regularisation parameter of `GLM`. -/
structure GLM (α : Type) where
  m_w : SGVector α
  bias : α
  m_tau : α

namespace GLM

variable {α : Type} [Field α]

def get_w (self : GLM α) : SGVector α := self.m_w

def get_bias (self : GLM α) : α := self.bias

/-- Modelled from the spec: `LinearMachine::set_bias(b)` is declared outside `GLM.cpp`.
The same model (weights, hyperparameters) with the bias replaced by `b`; the bias is
mutated externally between evaluations. -/
def set_bias (self : GLM α) (b : α) : GLM α := ⟨self.m_w, b, self.m_tau⟩

/-- Lines 30-32 of `GLM.cpp`: the argument of `std::exp` for sample `i`,
`beta0 + dot(feature_vector(i), beta)`. -/
def linear_predictor (self : GLM α) (features : DenseFeatures α) (i : Nat) :
    Except ShogunException α := do
  let beta := self.get_w
  let beta0 := self.get_bias
  let feature_vector ← features.get_feature_vector i
  let res ← linalg.dot feature_vector beta
  return beta0 + res

/-- Lines 25-33 of `GLM.cpp`: the vector `lambda` after the first loop. -/
def compute_lambda (exp log : α → α) (self : GLM α) (features : DenseFeatures α)
    (vector_count : Nat) : Except ShogunException (SGVector α) := do
  let lambda : SGVector α := SGVector.create vector_count
  (List.range vector_count).foldlM (fun (lambda : SGVector α) i => do
    let eta ← self.linear_predictor features i
    lambda.set_element (log (1 + exp eta)) i) lambda

/-- The method `GLM::log_likelihood`, lines 17-44 of `GLM.cpp`. -/
def log_likelihood (exp log : α → α) (self : GLM α) (features : DenseFeatures α)
    (label : Labels α) : Except ShogunException α := do
  let vector_count := features.get_num_vectors
  let _feature_count := features.get_num_features
  ASSERT (decide (vector_count > 0) && decide (label.get_num_labels = vector_count))
  let lambda ← compute_lambda exp log self features vector_count
  let _likelihood : SGVector α := SGVector.create vector_count
  let labels := label.get_values
  let log_lambda : SGVector α := SGVector.create vector_count
  let log_lambda ← (List.range vector_count).foldlM (fun (log_lambda : SGVector α) i => do
    let x ← lambda.get_element i
    log_lambda.set_element (log x) i) log_lambda
  let likelihood ← linalg.add (← linalg.element_prod labels log_lambda) lambda 1 (-1)
  return linalg.sum likelihood

/-- Lines 56-60 of `GLM.cpp`: the `1 × N` matrix `z`, the product of `beta` as a
`1 × D` matrix with the feature matrix, `beta0` added to every entry. -/
def compute_z (self : GLM α) (features : DenseFeatures α) :
    Except ShogunException (SGMatrix α) := do
  let beta := self.get_w
  let beta0 := self.get_bias
  let z ← linalg.matrix_prod (← SGMatrix.of_vector beta 1 beta.vlen)
    features.get_feature_matrix
  return linalg.add_scalar z beta0

/-- The method `GLM::log_likelihood_derivative`, lines 46-73 of `GLM.cpp`. -/
def log_likelihood_derivative (exp log : α → α) (self : GLM α)
    (features : DenseFeatures α) (label : Labels α) :
    Except ShogunException (SGVector α) := do
  let vector_count := features.get_num_vectors
  let _feature_count := features.get_num_features
  ASSERT (decide (vector_count > 0) && decide (label.get_num_labels = vector_count))
  let result : SGVector α := SGVector.create (vector_count + 1)
  let z ← compute_z self features
  let s : SGMatrix α := SGMatrix.create z.num_rows z.num_cols
  let s ← linalg.logistic exp z s
  let q : SGVector α := SGVector.create vector_count
  let _q ← (List.range vector_count).foldlM (fun (q : SGVector α) i => do
    let x ← z.get_element 0 i
    q.set_element (log (1 + exp x)) i) q
  let beta0_grad :=
    linalg.sum_matrix s -
      linalg.sum (← linalg.element_prod label.get_values (SGMatrix.to_vector s))
  let result ← result.set_element beta0_grad 0
  return result

end GLM

/-! The specification's formulas (spec.md, 4.1 and 4.2) -/

namespace Spec

variable {α : Type} [Field α]

/-- Spec 4.1 step 1: the linear predictor `eta_i = dot(feature_i, beta) + beta0`. -/
def eta (self : GLM α) (features : DenseFeatures α) (i : Nat) : α :=
  (∑ k in Finset.range features.get_num_features,
    features.feature_matrix.matrix k i * self.m_w.getD k 0) + self.bias

/-- Spec 4.1 step 2: `lambda_i = log(1 + exp(eta_i))`. -/
def lambda (exp log : α → α) (self : GLM α) (features : DenseFeatures α) (i : Nat) : α :=
  log (1 + exp (eta self features i))

/-- Spec 4.1 steps 3-5: the sum over all samples of
`label_i * log(lambda_i) - lambda_i`. -/
def log_likelihood (exp log : α → α) (self : GLM α) (features : DenseFeatures α)
    (label : Labels α) : α :=
  ∑ i in Finset.range features.get_num_vectors,
    (label.values.getD i 0 * log (lambda exp log self features i)
      - lambda exp log self features i)

/-- The logistic transform `sigmoid(x) = 1 / (1 + exp(-x))`. -/
def sigmoid (exp : α → α) (x : α) : α := 1 / (1 + exp (-x))

/-- Spec 4.2 step 4: the bias gradient component
`sum(s) - sum(label_i * s_i)` with `s_i = sigmoid(eta_i)`. -/
def bias_gradient (exp : α → α) (self : GLM α) (features : DenseFeatures α)
    (label : Labels α) : α :=
  (∑ i in Finset.range features.get_num_vectors, sigmoid exp (eta self features i))
    - ∑ i in Finset.range features.get_num_vectors,
        label.values.getD i 0 * sigmoid exp (eta self features i)

end Spec

/-! Reordering the samples -/

/-- The feature matrix with its columns (samples) reordered by the permutation `p`
of the sample indices: column `i` of the result is column `p i` of `f`. -/
def DenseFeatures.reorder {α : Type} (f : DenseFeatures α)
    (p : Equiv.Perm (Fin f.get_num_vectors)) : DenseFeatures α :=
  ⟨⟨f.feature_matrix.num_rows, f.feature_matrix.num_cols, fun k i =>
    if h : i < f.get_num_vectors then f.feature_matrix.matrix k (p ⟨i, h⟩)
    else f.feature_matrix.matrix k i⟩⟩

/-- The labels reordered by the permutation `p` of the sample indices `0 .. n-1`:
label `i` of the result is label `p i` of `l`. -/
def Labels.reorder {α : Type} [Zero α] (l : Labels α) (n : Nat) (p : Equiv.Perm (Fin n)) :
    Labels α :=
  ⟨List.ofFn (fun i : Fin n => l.values.getD (p i) 0)⟩

/-! Concrete inputs -/

namespace Example

variable (α : Type) [Field α]

/-- The feature matrix with `D = 1` feature and `N` samples, every entry `0`. -/
def zero_features (N : Nat) : DenseFeatures α := ⟨⟨1, N, fun _ _ => 0⟩⟩

/-- A label vector of `N` zeros. -/
def zero_labels (N : Nat) : Labels α := ⟨List.replicate N 0⟩

/-- The model with weight vector `[0]` (length 1) and bias `b`. -/
def zero_model (b : α) : GLM α := ⟨[0], b, 0⟩

/-- A model whose weight vector has length 2. -/
def long_model : GLM α := ⟨[1, 2], 0, 0⟩

/-- A feature matrix without samples (`D = 1`, `N = 0`). -/
def no_features : DenseFeatures α := ⟨⟨1, 0, fun _ _ => 0⟩⟩

end Example

/-! Loops that fill a vector slot by slot -/

section lemmas

variable {α : Type}

theorem set_element_ok (v : SGVector α) (x : α) (i : Nat) (h : i < v.length) :
    SGVector.set_element v x i = .ok (v.set i x) := by
  simp [SGVector.set_element, SGVector.vlen, h]

theorem set_fill_step (g : Nat → α) (z : α) (k m : Nat) :
    (((List.range k).map g ++ List.replicate (m + 1) z).set k (g k))
      = (List.range (k + 1)).map g ++ List.replicate m z := by
  rw [List.set_append_right _ _ (by simp)]
  simp [List.range_succ, List.replicate_succ]

theorem foldlM_fill_aux [Zero α] (body : SGVector α → Nat → Except ShogunException (SGVector α))
    (g : Nat → α) (n : Nat)
    (h : ∀ i, i < n → ∀ v : SGVector α, body v i = SGVector.set_element v (g i) i) :
    ∀ k, k ≤ n → (List.range k).foldlM body (SGVector.create n)
      = .ok ((List.range k).map g ++ List.replicate (n - k) 0) := by
  intro k
  induction k with
  | zero => intro _; simp [SGVector.create]; rfl
  | succ k ih =>
    intro hk
    have hk1 : k < n := hk
    rw [List.range_succ, List.foldlM_append, ih (Nat.le_of_lt hk1)]
    have e : n - k = (n - (k + 1)) + 1 := by omega
    simp only [List.foldlM_cons, List.foldlM_nil, h k hk1]
    rw [e]
    show (SGVector.set_element _ _ _ >>= pure) = _
    rw [set_element_ok _ _ _ (by simp), set_fill_step, List.range_succ]
    rfl

theorem foldlM_fill [Zero α] (body : SGVector α → Nat → Except ShogunException (SGVector α))
    (g : Nat → α) (n : Nat)
    (h : ∀ i, i < n → ∀ v : SGVector α, body v i = SGVector.set_element v (g i) i) :
    (List.range n).foldlM body (SGVector.create n) = .ok ((List.range n).map g) := by
  have := foldlM_fill_aux body g n h n (Nat.le_refl n)
  simpa using this

theorem sum_map_range {β : Type} [AddCommMonoid β] (f : Nat → β) (n : Nat) :
    ((List.range n).map f).sum = ∑ k in Finset.range n, f k := by
  induction n with
  | zero => simp
  | succ n ih => simp [List.range_succ, Finset.sum_range_succ, ih]

theorem eq_map_range [Zero α] (l : List α) :
    l = (List.range l.length).map (fun k => l.getD k 0) := by
  apply List.ext_getElem
  · simp
  · intro i h1 h2
    simp [h1]

theorem zipWith_diag {β δ : Type} (op : β → β → δ) (l : List β) :
    List.zipWith op l l = l.map (fun a => op a a) := by
  induction l with
  | nil => rfl
  | cons a l ih => simp [ih]

theorem zipWith_map_range {β γ δ : Type} (op : β → γ → δ) (f : Nat → β) (g : Nat → γ) (n : Nat) :
    List.zipWith op ((List.range n).map f) ((List.range n).map g)
      = (List.range n).map (fun k => op (f k) (g k)) := by
  rw [List.zipWith_map, zipWith_diag]

theorem get_element_map_range (g : Nat → α) (n i : Nat) (h : i < n) :
    SGVector.get_element ((List.range n).map g) i = .ok (g i) := by
  simp [SGVector.get_element, List.get?_eq_getElem?, h]

section closed_forms

variable [Field α]

theorem dot_map_range (f : Nat → α) (w : SGVector α) (n : Nat) (hw : w.length = n) :
    linalg.dot ((List.range n).map f) w
      = .ok (∑ k in Finset.range n, f k * w.getD k 0) := by
  subst hw
  have e : List.zipWith (fun x y => x * y) ((List.range w.length).map f) w
      = (List.range w.length).map (fun k => f k * w.getD k 0) := by
    conv_lhs => rw [eq_map_range w]
    simp only [List.length_map, List.length_range]
    exact zipWith_map_range _ _ _ _
  simp only [linalg.dot, SGVector.vlen, List.length_map, List.length_range, if_true, e,
    sum_map_range]

theorem linear_predictor_ok (self : GLM α) (features : DenseFeatures α) (i : Nat)
    (hi : i < features.get_num_vectors)
    (hW : self.get_w.vlen = features.get_num_features) :
    self.linear_predictor features i = .ok (Spec.eta self features i) := by
  have hd := dot_map_range (fun k => features.feature_matrix.matrix k i) self.m_w
    features.get_num_features hW
  simp only [GLM.linear_predictor, DenseFeatures.get_feature_vector, hi, if_true, GLM.get_w,
    GLM.get_bias, Spec.eta]
  show (linalg.dot _ _ >>= fun res => pure (self.bias + res)) = _
  rw [hd]
  show Except.ok _ = Except.ok _
  rw [add_comm]

theorem compute_lambda_ok (exp log : α → α) (self : GLM α) (features : DenseFeatures α)
    (hW : self.get_w.vlen = features.get_num_features) :
    GLM.compute_lambda exp log self features features.get_num_vectors
      = .ok ((List.range features.get_num_vectors).map (Spec.lambda exp log self features)) := by
  unfold GLM.compute_lambda
  apply foldlM_fill
  intro i hi v
  rw [linear_predictor_ok self features i hi hW]
  rfl

theorem ok_bind {ε β γ : Type} (a : β) (f : β → Except ε γ) :
    (Except.ok a >>= f) = f a := rfl

theorem error_bind {ε β γ : Type} (e : ε) (f : β → Except ε γ) :
    ((Except.error e : Except ε β) >>= f) = Except.error e := rfl

theorem assert_ok (n m : Nat) (hN : 0 < n) (hL : m = n) :
    ASSERT (decide (n > 0) && decide (m = n)) = .ok () := by
  simp [ASSERT, hN, hL]

theorem assert_error (n m : Nat) (h : n ≤ 0 ∨ m ≠ n) :
    ASSERT (decide (n > 0) && decide (m = n)) = .error .InvalidArgument := by
  rcases h with h | h
  · have : n = 0 := by omega
    simp [ASSERT, this]
  · simp [ASSERT, h]

theorem log_likelihood_ok (exp log : α → α) (self : GLM α) (features : DenseFeatures α)
    (label : Labels α) (hN : 0 < features.get_num_vectors)
    (hL : label.get_num_labels = features.get_num_vectors)
    (hW : self.get_w.vlen = features.get_num_features) :
    GLM.log_likelihood exp log self features label
      = .ok (Spec.log_likelihood exp log self features label) := by
  have hloop : (List.range features.get_num_vectors).foldlM
      (fun (log_lambda : SGVector α) i => do
        let x ← SGVector.get_element
          ((List.range features.get_num_vectors).map (Spec.lambda exp log self features)) i
        log_lambda.set_element (log x) i) (SGVector.create features.get_num_vectors)
      = .ok ((List.range features.get_num_vectors).map
          (fun i => log (Spec.lambda exp log self features i))) := by
    apply foldlM_fill
    intro i hi v
    rw [get_element_map_range _ _ _ hi]
    rfl
  have hlab : label.values = (List.range features.get_num_vectors).map
      (fun i => label.values.getD i 0) := by
    have := eq_map_range label.values
    rwa [show label.values.length = features.get_num_vectors from hL] at this
  unfold GLM.log_likelihood
  simp only [assert_ok _ _ hN hL, compute_lambda_ok exp log self features hW, ok_bind, hloop]
  rw [Labels.get_values, hlab]
  simp only [linalg.element_prod, linalg.add, SGVector.vlen, List.length_map, List.length_range,
    if_true, zipWith_map_range, ok_bind]
  show Except.ok (linalg.sum _) = _
  rw [linalg.sum, sum_map_range, Spec.log_likelihood]
  congr 1
  apply Finset.sum_congr rfl
  intro i _
  ring

theorem compute_z_ok (self : GLM α) (features : DenseFeatures α)
    (hW : self.get_w.vlen = features.get_num_features) :
    ∃ z : SGMatrix α, GLM.compute_z self features = .ok z ∧ z.num_rows = 1 ∧
      z.num_cols = features.get_num_vectors ∧
      ∀ r c, r < 1 → z.matrix r c = Spec.eta self features c := by
  have hW2 : self.m_w.length = features.feature_matrix.num_rows := hW
  refine ⟨⟨1, features.get_num_vectors, fun r c =>
    ((List.range self.m_w.length).map (fun k =>
      self.m_w.getD (k * 1 + r) 0 * features.feature_matrix.matrix k c)).sum + self.bias⟩,
    ?_, rfl, rfl, ?_⟩
  · simp only [GLM.compute_z, SGMatrix.of_vector, GLM.get_w, GLM.get_bias, SGVector.vlen,
      one_mul, if_true, ok_bind, linalg.matrix_prod, DenseFeatures.get_feature_matrix, hW2]
    rfl
  · intro r c hr
    have hr0 : r = 0 := by omega
    subst hr0
    simp only [sum_map_range, Spec.eta, DenseFeatures.get_num_features, hW2, mul_one, add_zero]
    congr 1
    apply Finset.sum_congr rfl
    intro k _
    rw [mul_comm]

theorem log_likelihood_derivative_ok (exp log : α → α) (self : GLM α)
    (features : DenseFeatures α) (label : Labels α) (hN : 0 < features.get_num_vectors)
    (hL : label.get_num_labels = features.get_num_vectors)
    (hW : self.get_w.vlen = features.get_num_features) :
    GLM.log_likelihood_derivative exp log self features label
      = .ok (Spec.bias_gradient exp self features label
          :: List.replicate features.get_num_vectors 0) := by
  obtain ⟨⟨zr, zc, zm⟩, hz, hr, hc, hent⟩ := compute_z_ok self features hW
  simp only at hr hc hent
  subst hr hc
  have hq : (List.range features.get_num_vectors).foldlM
      (fun (q : SGVector α) i => do
        let x ← SGMatrix.get_element ⟨1, features.get_num_vectors, zm⟩ 0 i
        q.set_element (log (1 + exp x)) i) (SGVector.create features.get_num_vectors)
      = .ok ((List.range features.get_num_vectors).map
          (fun i => log (1 + exp (zm 0 i)))) := by
    apply foldlM_fill
    intro i hi v
    simp only [SGMatrix.get_element, hi, Nat.lt_one_iff, and_self, if_true, ok_bind]
  have hlab : label.values = (List.range features.get_num_vectors).map
      (fun i => label.values.getD i 0) := by
    have := eq_map_range label.values
    rwa [show label.values.length = features.get_num_vectors from hL] at this
  unfold GLM.log_likelihood_derivative
  simp only [assert_ok _ _ hN hL, hz, ok_bind, linalg.logistic, SGMatrix.create, and_self,
    if_true, hq]
  rw [Labels.get_values, hlab]
  simp only [linalg.element_prod, SGVector.vlen, SGMatrix.to_vector, one_mul, List.length_map,
    List.length_range, if_true, zipWith_map_range, ok_bind, Nat.mod_one, Nat.div_one,
    linalg.sum, linalg.sum_matrix, sum_map_range, Finset.sum_range_one, SGVector.set_element,
    SGVector.create, List.length_replicate, Nat.zero_lt_succ, List.replicate_succ,
    List.set_cons_zero, List.length_cons, if_true, ok_bind]
  show Except.ok _ = Except.ok _
  simp only [Spec.bias_gradient, Spec.sigmoid, hent 0 _ Nat.zero_lt_one]

end closed_forms
end lemmas

/-! Facts that hold in exact arithmetic only -/

/-- Exact arithmetic only: when `float64_t` is read as the reals, the value returned
by `GLM.log_likelihood` does not change when the samples and the labels are both
reordered by a permutation `p` of the sample indices.  The rounding of the float64
additions of the source, which need not commute with a reordering, is not modelled. -/
theorem log_likelihood_reorder_over_reals (self : GLM ℝ) (features : DenseFeatures ℝ)
    (label : Labels ℝ) (hN : 0 < features.get_num_vectors)
    (hL : label.get_num_labels = features.get_num_vectors)
    (hW : self.get_w.vlen = features.get_num_features)
    (p : Equiv.Perm (Fin features.get_num_vectors)) :
    ∃ v : ℝ, GLM.log_likelihood Real.exp Real.log self features label = .ok v
      ∧ GLM.log_likelihood Real.exp Real.log self (features.reorder p)
          (label.reorder features.get_num_vectors p) = .ok v := by
  refine ⟨_, log_likelihood_ok _ _ self features label hN hL hW, ?_⟩
  have hL2 : (label.reorder features.get_num_vectors p).get_num_labels
      = (features.reorder p).get_num_vectors := by
    simp [Labels.reorder, Labels.get_num_labels, SGVector.vlen, DenseFeatures.reorder,
      DenseFeatures.get_num_vectors]
  rw [log_likelihood_ok _ _ self (features.reorder p) _ hN hL2 hW]
  congr 1
  have heta : ∀ i : Fin features.get_num_vectors,
      Spec.eta self (features.reorder p) i = Spec.eta self features (p i) := by
    intro i
    simp [Spec.eta, DenseFeatures.reorder, DenseFeatures.get_num_features]
  have hlab : ∀ i : Fin features.get_num_vectors,
      (label.reorder features.get_num_vectors p).values.getD i 0
        = label.values.getD (p i) 0 := by
    intro i
    simp [Labels.reorder, List.getD_eq_getElem?_getD]
  unfold Spec.log_likelihood
  show ∑ i in Finset.range features.get_num_vectors, _ = _
  rw [Finset.sum_range, Finset.sum_range]
  rw [← Equiv.sum_comp p (fun j : Fin features.get_num_vectors =>
    label.values.getD j 0 * Real.log (Spec.lambda Real.exp Real.log self features j)
      - Spec.lambda Real.exp Real.log self features j)]
  apply Finset.sum_congr rfl
  intro i _
  simp only [Spec.lambda, heta i, hlab i]

/-- Exact arithmetic only: when `float64_t` is read as the reals, every `lambda_i`
computed by the first loop of `GLM.log_likelihood` is `log(1 + exp(eta_i))` and is
strictly positive.  The rounding of `1 + exp(eta_i)` in float64, which can give
exactly 1 and hence `lambda_i = 0`, is not modelled. -/
theorem compute_lambda_pos_over_reals (self : GLM ℝ) (features : DenseFeatures ℝ)
    (hW : self.get_w.vlen = features.get_num_features) :
    ∃ lambda : SGVector ℝ,
      GLM.compute_lambda Real.exp Real.log self features features.get_num_vectors
        = .ok lambda
      ∧ lambda.vlen = features.get_num_vectors
      ∧ (∀ i, i < features.get_num_vectors →
          lambda.get_element i = .ok (Real.log (1 + Real.exp (Spec.eta self features i)))
            ∧ 0 < Real.log (1 + Real.exp (Spec.eta self features i)))
      ∧ (∀ x ∈ lambda, 0 < x) := by
  have hpos : ∀ x : ℝ, 0 < Real.log (1 + Real.exp x) := fun x =>
    Real.log_pos (by linarith [Real.exp_pos x])
  refine ⟨_, compute_lambda_ok _ _ self features hW, by simp [SGVector.vlen], ?_, ?_⟩
  · intro i hi
    exact ⟨get_element_map_range _ _ _ hi, hpos _⟩
  · intro x hx
    obtain ⟨i, _, rfl⟩ := List.mem_map.1 hx
    exact hpos _

/-! The claims -/

open Example

/-- C1: for every valid input (N > 0 samples of dimension D, N labels, a weight
vector of length D), `GLM::log_likelihood` returns, over the reals, the sum over all
samples of `label_i * log(lambda_i) - lambda_i` with
`lambda_i = log(1 + exp(dot(feature_i, beta) + beta0))`; and for N = 1, D = 1,
feature = [0], label = [0], beta = [0], beta0 = 0 it returns `-log 2`. -/
theorem C1_log_likelihood_formula (self : GLM ℝ) (features : DenseFeatures ℝ)
    (label : Labels ℝ) (hN : 0 < features.get_num_vectors)
    (hL : label.get_num_labels = features.get_num_vectors)
    (hW : self.get_w.vlen = features.get_num_features) :
    GLM.log_likelihood Real.exp Real.log self features label
        = .ok (∑ i in Finset.range features.get_num_vectors,
            (label.values.getD i 0 * Real.log (Spec.lambda Real.exp Real.log self features i)
              - Spec.lambda Real.exp Real.log self features i))
      ∧ (∀ i, Spec.lambda Real.exp Real.log self features i
          = Real.log (1 + Real.exp ((∑ k in Finset.range features.get_num_features,
              features.feature_matrix.matrix k i * self.m_w.getD k 0) + self.bias)))
      ∧ GLM.log_likelihood Real.exp Real.log (zero_model ℝ 0) (zero_features ℝ 1)
          (zero_labels ℝ 1) = .ok (-Real.log 2) := by
  refine ⟨log_likelihood_ok _ _ self features label hN hL hW, fun i => rfl, ?_⟩
  rw [log_likelihood_ok _ _ _ _ _ (by decide) (by decide) (by decide)]
  simp [Spec.log_likelihood, Spec.lambda, Spec.eta, zero_model, zero_features, zero_labels,
    DenseFeatures.get_num_vectors, DenseFeatures.get_num_features]
  norm_num

theorem C1_log_likelihood_formula_witness :
    GLM.log_likelihood Real.exp Real.log (long_model ℝ)
        ⟨⟨2, 1, fun k _ => (k : ℝ)⟩⟩ ⟨[3]⟩
      = .ok (∑ i in Finset.range 1,
          ((3 : ℝ) * Real.log (Spec.lambda Real.exp Real.log (long_model ℝ)
              ⟨⟨2, 1, fun k _ => (k : ℝ)⟩⟩ i)
            - Spec.lambda Real.exp Real.log (long_model ℝ) ⟨⟨2, 1, fun k _ => (k : ℝ)⟩⟩ i)) := by
  have h := (C1_log_likelihood_formula (long_model ℝ) ⟨⟨2, 1, fun k _ => (k : ℝ)⟩⟩ ⟨[3]⟩
    (by decide) (by decide) (by decide)).1
  simpa [DenseFeatures.get_num_vectors] using h

/-- C2: whenever the number of feature vectors is `<= 0` or the number of labels
differs from it, both `GLM::log_likelihood` and `GLM::log_likelihood_derivative` fail
with the InvalidArgument error and return no value; in particular `log_likelihood`
does not return 0. -/
theorem C2_invalid_counts_fail (self : GLM ℝ) (features : DenseFeatures ℝ)
    (label : Labels ℝ)
    (h : features.get_num_vectors ≤ 0 ∨ label.get_num_labels ≠ features.get_num_vectors) :
    GLM.log_likelihood Real.exp Real.log self features label = .error .InvalidArgument
      ∧ GLM.log_likelihood_derivative Real.exp Real.log self features label
          = .error .InvalidArgument
      ∧ GLM.log_likelihood Real.exp Real.log self features label ≠ .ok 0 := by
  have h1 : GLM.log_likelihood Real.exp Real.log self features label
      = .error .InvalidArgument := by
    unfold GLM.log_likelihood
    simp only [assert_error _ _ h, error_bind]
  have h2 : GLM.log_likelihood_derivative Real.exp Real.log self features label
      = .error .InvalidArgument := by
    unfold GLM.log_likelihood_derivative
    simp only [assert_error _ _ h, error_bind]
  refine ⟨h1, h2, ?_⟩
  rw [h1]
  exact fun hc => by cases hc

theorem C2_invalid_counts_fail_witness :
    GLM.log_likelihood Real.exp Real.log (zero_model ℝ 0) (no_features ℝ) (zero_labels ℝ 0)
        = .error .InvalidArgument
      ∧ GLM.log_likelihood_derivative Real.exp Real.log (zero_model ℝ 0) (no_features ℝ)
          (zero_labels ℝ 0) = .error .InvalidArgument
      ∧ GLM.log_likelihood Real.exp Real.log (zero_model ℝ 0) (no_features ℝ)
          (zero_labels ℝ 0) ≠ .ok 0 :=
  C2_invalid_counts_fail (zero_model ℝ 0) (no_features ℝ) (zero_labels ℝ 0)
    (Or.inl (by decide))

/-- C3: at the input with N = 2 samples of dimension D = 1 (all features, labels,
weights and the bias zero) the vector returned by `GLM::log_likelihood_derivative` is
`[1, 0, 0]`: it has N + 1 = 3 slots, whereas D + 1 = 2. -/
theorem C3_derivative_length_at_two_samples :
    GLM.log_likelihood_derivative Real.exp Real.log (zero_model ℝ 0) (zero_features ℝ 2)
        (zero_labels ℝ 2) = .ok [1, 0, 0]
      ∧ SGVector.vlen ([1, 0, 0] : SGVector ℝ) = 3
      ∧ (zero_features ℝ 2).get_num_features + 1 = 2 := by
  refine ⟨?_, rfl, rfl⟩
  rw [log_likelihood_derivative_ok _ _ _ _ _ (by decide) (by decide) (by decide)]
  simp [Spec.bias_gradient, Spec.sigmoid, Spec.eta, zero_model, zero_features, zero_labels,
    DenseFeatures.get_num_vectors, DenseFeatures.get_num_features, Finset.sum_range_succ]
  norm_num

/-- C4: for every valid input the bias component of the vector returned by
`GLM::log_likelihood_derivative`, the element at index 0, equals
`sum_i sigmoid(eta_i) - sum_i label_i * sigmoid(eta_i)` with
`eta_i = dot(feature_i, beta) + beta0` and `sigmoid(x) = 1 / (1 + exp(-x))`. -/
theorem C4_bias_component (self : GLM ℝ) (features : DenseFeatures ℝ)
    (label : Labels ℝ) (hN : 0 < features.get_num_vectors)
    (hL : label.get_num_labels = features.get_num_vectors)
    (hW : self.get_w.vlen = features.get_num_features) :
    ∃ result : SGVector ℝ,
      GLM.log_likelihood_derivative Real.exp Real.log self features label = .ok result
      ∧ result.get_element 0
          = .ok ((∑ i in Finset.range features.get_num_vectors,
                1 / (1 + Real.exp (-(Spec.eta self features i))))
              - ∑ i in Finset.range features.get_num_vectors,
                label.values.getD i 0 * (1 / (1 + Real.exp (-(Spec.eta self features i)))))
      ∧ ∀ i, Spec.eta self features i
          = (∑ k in Finset.range features.get_num_features,
              features.feature_matrix.matrix k i * self.m_w.getD k 0) + self.bias :=
  ⟨_, log_likelihood_derivative_ok _ _ self features label hN hL hW, rfl, fun _ => rfl⟩

theorem C4_bias_component_witness :
    ∃ result : SGVector ℝ,
      GLM.log_likelihood_derivative Real.exp Real.log (zero_model ℝ 1) (zero_features ℝ 3)
        ⟨[1, 0, 2]⟩ = .ok result
      ∧ result.get_element 0
          = .ok ((∑ i in Finset.range (zero_features ℝ 3).get_num_vectors,
                1 / (1 + Real.exp (-(Spec.eta (zero_model ℝ 1) (zero_features ℝ 3) i))))
              - ∑ i in Finset.range (zero_features ℝ 3).get_num_vectors,
                (⟨[1, 0, 2]⟩ : Labels ℝ).values.getD i 0
                  * (1 / (1 + Real.exp (-(Spec.eta (zero_model ℝ 1) (zero_features ℝ 3) i)))))
      ∧ ∀ i, Spec.eta (zero_model ℝ 1) (zero_features ℝ 3) i
          = (∑ k in Finset.range (zero_features ℝ 3).get_num_features,
              (zero_features ℝ 3).feature_matrix.matrix k i * (zero_model ℝ 1).m_w.getD k 0)
            + (zero_model ℝ 1).bias :=
  C4_bias_component (zero_model ℝ 1) (zero_features ℝ 3) ⟨[1, 0, 2]⟩
    (by decide) (by decide) (by decide)

/-- C6, as stated, fails.  With N = 1, D = 1, feature = [0], beta = [0]:
with label = [0] the log-likelihood as a function of the bias is
`b ↦ -log(1 + exp b)`, of derivative `-1/2` at `b = 0`, while the bias component
returned at bias 0 is `+1/2`; with label = [1] the log-likelihood is
`b ↦ log(log(1 + exp b)) - log(1 + exp b)`, of derivative `(1/2)/log 2 - 1/2` at
`b = 0`, which is not zero, while the bias component returned at bias 0 is `0`, the
derivative of neither the log-likelihood nor its negation. -/
theorem C6_bias_component_is_not_the_derivative :
    ((∀ b : ℝ, GLM.log_likelihood Real.exp Real.log (zero_model ℝ b) (zero_features ℝ 1)
          (zero_labels ℝ 1) = .ok (-Real.log (1 + Real.exp b)))
        ∧ HasDerivAt (fun b : ℝ => -Real.log (1 + Real.exp b)) (-(1 / 2)) 0
        ∧ GLM.log_likelihood_derivative Real.exp Real.log (zero_model ℝ 0)
            (zero_features ℝ 1) (zero_labels ℝ 1) = .ok [1 / 2, 0]
        ∧ ¬ HasDerivAt (fun b : ℝ => -Real.log (1 + Real.exp b)) (1 / 2) 0)
      ∧ ((∀ b : ℝ, GLM.log_likelihood Real.exp Real.log (zero_model ℝ b)
            (zero_features ℝ 1) ⟨[1]⟩
            = .ok (Real.log (Real.log (1 + Real.exp b)) - Real.log (1 + Real.exp b)))
        ∧ HasDerivAt
            (fun b : ℝ => Real.log (Real.log (1 + Real.exp b)) - Real.log (1 + Real.exp b))
            (1 / 2 / Real.log 2 - 1 / 2) 0
        ∧ (1 / 2 / Real.log 2 - 1 / 2 : ℝ) ≠ 0
        ∧ GLM.log_likelihood_derivative Real.exp Real.log (zero_model ℝ 0)
            (zero_features ℝ 1) ⟨[1]⟩ = .ok [0, 0]
        ∧ ¬ HasDerivAt
            (fun b : ℝ => Real.log (Real.log (1 + Real.exp b)) - Real.log (1 + Real.exp b))
            0 0
        ∧ ¬ HasDerivAt
            (fun b : ℝ =>
              -(Real.log (Real.log (1 + Real.exp b)) - Real.log (1 + Real.exp b)))
            0 0) := by
  have h1 : HasDerivAt (fun b : ℝ => 1 + Real.exp b) (Real.exp 0) 0 :=
    (Real.hasDerivAt_exp 0).const_add 1
  have h2 : HasDerivAt (fun b : ℝ => Real.log (1 + Real.exp b))
      (Real.exp 0 / (1 + Real.exp 0)) 0 := h1.log (by positivity)
  have e2 : Real.exp 0 / (1 + Real.exp 0) = (1 / 2 : ℝ) := by
    rw [Real.exp_zero]; norm_num
  have e3 : (1 : ℝ) + Real.exp 0 = 2 := by rw [Real.exp_zero]; norm_num
  have hlog2 : 0 < Real.log 2 := Real.log_pos (by norm_num)
  have hlog2lt : Real.log 2 < 1 := by
    have := Real.log_lt_sub_one_of_pos (by norm_num : (0 : ℝ) < 2) (by norm_num)
    linarith
  have hd0 : HasDerivAt (fun b : ℝ => -Real.log (1 + Real.exp b)) (-(1 / 2)) 0 := by
    have := h2.neg
    rwa [e2] at this
  have hne : (1 / 2 / Real.log 2 - 1 / 2 : ℝ) ≠ 0 := by
    have : (1 / 2 : ℝ) < 1 / 2 / Real.log 2 := by
      rw [lt_div_iff₀ hlog2]
      nlinarith
    linarith
  have hd1 : HasDerivAt
      (fun b : ℝ => Real.log (Real.log (1 + Real.exp b)) - Real.log (1 + Real.exp b))
      (1 / 2 / Real.log 2 - 1 / 2) 0 := by
    have h3 := (h2.log (by rw [e3]; exact ne_of_gt hlog2)).sub h2
    rw [e2, e3] at h3
    exact h3
  refine ⟨⟨?_, hd0, ?_, ?_⟩, ⟨?_, hd1, hne, ?_, ?_, ?_⟩⟩
  · intro b
    rw [log_likelihood_ok Real.exp Real.log (zero_model ℝ b) (zero_features ℝ 1)
      (zero_labels ℝ 1) (by decide) (by decide) rfl]
    simp [Spec.log_likelihood, Spec.lambda, Spec.eta, zero_model, zero_features, zero_labels,
      DenseFeatures.get_num_vectors, DenseFeatures.get_num_features]
  · rw [log_likelihood_derivative_ok _ _ _ _ _ (by decide) (by decide) (by decide)]
    simp [Spec.bias_gradient, Spec.sigmoid, Spec.eta, zero_model, zero_features, zero_labels,
      DenseFeatures.get_num_vectors, DenseFeatures.get_num_features]
    norm_num
  · intro h
    have := h.unique hd0
    norm_num at this
  · intro b
    rw [log_likelihood_ok Real.exp Real.log (zero_model ℝ b) (zero_features ℝ 1)
      ⟨[1]⟩ (by decide) (by decide) rfl]
    simp [Spec.log_likelihood, Spec.lambda, Spec.eta, zero_model, zero_features,
      DenseFeatures.get_num_vectors, DenseFeatures.get_num_features]
  · rw [log_likelihood_derivative_ok _ _ _ _ _ (by decide) (by decide) (by decide)]
    simp [Spec.bias_gradient, Spec.sigmoid, Spec.eta, zero_model, zero_features,
      DenseFeatures.get_num_vectors, DenseFeatures.get_num_features]
  · intro h
    exact hne (hd1.unique h)
  · intro h
    have := hd1.neg.unique h
    apply hne
    linarith

/-- C6, amended: for every valid input whose labels are all zero, the bias
component returned by `GLM::log_likelihood_derivative` is the partial derivative, with
respect to the bias, of the negated log-likelihood: the real function
`beta0 ↦ -log_likelihood(features, labels, beta, beta0)` has, at every `beta0`,
derivative equal to the bias component computed at that `beta0`. -/
theorem C6_bias_component_is_derivative_of_negated (self : GLM ℝ)
    (features : DenseFeatures ℝ) (label : Labels ℝ) (hN : 0 < features.get_num_vectors)
    (hL : label.get_num_labels = features.get_num_vectors)
    (hW : self.get_w.vlen = features.get_num_features)
    (h0 : ∀ y ∈ label.get_values, y = 0) (beta0 : ℝ) :
    ∃ (L : ℝ → ℝ) (result : SGVector ℝ) (g : ℝ),
      (∀ b : ℝ, GLM.log_likelihood Real.exp Real.log (self.set_bias b) features label
          = .ok (L b))
      ∧ GLM.log_likelihood_derivative Real.exp Real.log (self.set_bias beta0) features label
          = .ok result
      ∧ result.get_element 0 = .ok g
      ∧ HasDerivAt (fun b : ℝ => -(L b)) g beta0 := by
  have hy : ∀ i, label.values.getD i 0 = 0 := by
    intro i
    by_cases hi : i < label.values.length
    · rw [List.getD_eq_getElem _ _ hi]
      exact h0 _ (List.getElem_mem hi)
    · rw [List.getD_eq_default _ _ (Nat.le_of_not_lt hi)]
  have hy2 : ∀ i : Nat, (label.values : List ℝ)[i]?.getD 0 = 0 := by
    intro i
    simpa using hy i
  refine ⟨fun b => Spec.log_likelihood Real.exp Real.log (self.set_bias b) features label,
    _, Spec.bias_gradient Real.exp (self.set_bias beta0) features label,
    fun b => log_likelihood_ok _ _ (self.set_bias b) features label hN hL hW,
    log_likelihood_derivative_ok _ _ (self.set_bias beta0) features label hN hL hW, rfl, ?_⟩
  have hterm : ∀ i ∈ Finset.range features.get_num_vectors,
      HasDerivAt (fun b : ℝ => Spec.lambda Real.exp Real.log (self.set_bias b) features i)
        (Spec.sigmoid Real.exp (Spec.eta (self.set_bias beta0) features i)) beta0 := by
    intro i _
    have ha : HasDerivAt (fun b : ℝ => Spec.eta (self.set_bias b) features i) 1 beta0 := by
      simpa [Spec.eta, GLM.set_bias] using (hasDerivAt_id beta0).const_add
        (∑ k in Finset.range features.get_num_features,
          features.feature_matrix.matrix k i * self.m_w.getD k 0)
    have hb := (ha.exp.const_add 1).log
      (ne_of_gt (by positivity : (0 : ℝ) < 1 + Real.exp (Spec.eta (self.set_bias beta0) features i)))
    have hv : Real.exp (Spec.eta (self.set_bias beta0) features i) * 1
          / (1 + Real.exp (Spec.eta (self.set_bias beta0) features i))
        = Spec.sigmoid Real.exp (Spec.eta (self.set_bias beta0) features i) := by
      have hp := Real.exp_pos (Spec.eta (self.set_bias beta0) features i)
      rw [Spec.sigmoid, Real.exp_neg]
      field_simp
      ring
    rw [hv] at hb
    exact hb
  have hsum := HasDerivAt.sum hterm
  have hf : (fun b : ℝ => -(Spec.log_likelihood Real.exp Real.log (self.set_bias b)
        features label))
      = fun b : ℝ => ∑ i in Finset.range features.get_num_vectors,
          Spec.lambda Real.exp Real.log (self.set_bias b) features i := by
    funext b
    simp [Spec.log_likelihood, hy2]
  have hg : Spec.bias_gradient Real.exp (self.set_bias beta0) features label
      = ∑ i in Finset.range features.get_num_vectors,
          Spec.sigmoid Real.exp (Spec.eta (self.set_bias beta0) features i) := by
    simp [Spec.bias_gradient, hy2]
  rw [hf, hg]
  exact hsum

theorem C6_bias_component_is_derivative_of_negated_witness :
    ∃ (L : ℝ → ℝ) (result : SGVector ℝ) (g : ℝ),
      (∀ b : ℝ, GLM.log_likelihood Real.exp Real.log ((long_model ℝ).set_bias b)
          ⟨⟨2, 3, fun k c => (k : ℝ) + c⟩⟩ (zero_labels ℝ 3) = .ok (L b))
      ∧ GLM.log_likelihood_derivative Real.exp Real.log ((long_model ℝ).set_bias 4)
          ⟨⟨2, 3, fun k c => (k : ℝ) + c⟩⟩ (zero_labels ℝ 3) = .ok result
      ∧ result.get_element 0 = .ok g
      ∧ HasDerivAt (fun b : ℝ => -(L b)) g 4 :=
  C6_bias_component_is_derivative_of_negated (long_model ℝ)
    ⟨⟨2, 3, fun k c => (k : ℝ) + c⟩⟩ (zero_labels ℝ 3) (by decide) (by decide) (by decide)
    (by simp [zero_labels, Labels.get_values]) 4

/-- C8, as stated, fails: at N = 1, D = 1, feature = [0], label = [0], beta = [0],
beta0 = 0 the returned vector is `[1/2, 0]`; its first slot, one of the first D = 1
slots, holds the bias term `1/2` and not zero. -/
theorem C8_first_slot_is_not_zero :
    GLM.log_likelihood_derivative Real.exp Real.log (zero_model ℝ 0) (zero_features ℝ 1)
        (zero_labels ℝ 1) = .ok [1 / 2, 0]
      ∧ 0 < (zero_features ℝ 1).get_num_features
      ∧ SGVector.get_element ([1 / 2, 0] : SGVector ℝ) 0 = .ok (1 / 2)
      ∧ (1 / 2 : ℝ) ≠ 0 := by
  refine ⟨?_, by decide, rfl, by norm_num⟩
  rw [log_likelihood_derivative_ok _ _ _ _ _ (by decide) (by decide) (by decide)]
  simp [Spec.bias_gradient, Spec.sigmoid, Spec.eta, zero_model, zero_features, zero_labels,
    DenseFeatures.get_num_vectors, DenseFeatures.get_num_features]
  norm_num

/-- C8, amended: for every valid input `GLM::log_likelihood_derivative` writes only
the bias term, at index 0 of the returned vector; every other slot of the returned
vector is left at the default value zero, so no feature-weight gradient component is
computed. -/
theorem C8_slots_after_bias_are_zero (self : GLM ℝ) (features : DenseFeatures ℝ)
    (label : Labels ℝ) (hN : 0 < features.get_num_vectors)
    (hL : label.get_num_labels = features.get_num_vectors)
    (hW : self.get_w.vlen = features.get_num_features) :
    ∃ result : SGVector ℝ,
      GLM.log_likelihood_derivative Real.exp Real.log self features label = .ok result
      ∧ result.get_element 0 = .ok (Spec.bias_gradient Real.exp self features label)
      ∧ ∀ j, 1 ≤ j → j < result.vlen → result.get_element j = .ok 0 := by
  refine ⟨_, log_likelihood_derivative_ok _ _ self features label hN hL hW, rfl, ?_⟩
  intro j h1 h2
  obtain ⟨m, rfl⟩ : ∃ m, j = m + 1 := ⟨j - 1, by omega⟩
  have hm : m < features.get_num_vectors := by
    simpa [SGVector.vlen] using h2
  simp [SGVector.get_element, List.getElem?_replicate, hm]

theorem C8_slots_after_bias_are_zero_witness :
    ∃ result : SGVector ℝ,
      GLM.log_likelihood_derivative Real.exp Real.log (zero_model ℝ 2) (zero_features ℝ 3)
        ⟨[1, 1, 0]⟩ = .ok result
      ∧ result.get_element 0
          = .ok (Spec.bias_gradient Real.exp (zero_model ℝ 2) (zero_features ℝ 3) ⟨[1, 1, 0]⟩)
      ∧ ∀ j, 1 ≤ j → j < result.vlen → result.get_element j = .ok 0 :=
  C8_slots_after_bias_are_zero (zero_model ℝ 2) (zero_features ℝ 3) ⟨[1, 1, 0]⟩
    (by decide) (by decide) (by decide)

/-- C9: for every feature matrix with N samples of dimension D, every weight
vector of length D and every bias, the matrix `z` built in
`GLM::log_likelihood_derivative` is `1 × N` and, for every sample `i < N` (so that
N > 0), its entry `(0, i)`
is the value `beta0 + dot(feature_vector(i), beta)` that `GLM::log_likelihood` feeds
to `exp` for sample `i`. -/
theorem C9_same_linear_predictor (self : GLM ℝ) (features : DenseFeatures ℝ)
    (hW : self.get_w.vlen = features.get_num_features)
    (i : Nat) (hi : i < features.get_num_vectors) :
    ∃ (z : SGMatrix ℝ) (v : ℝ),
      GLM.compute_z self features = .ok z
      ∧ z.num_rows = 1 ∧ z.num_cols = features.get_num_vectors
      ∧ z.get_element 0 i = .ok v
      ∧ self.linear_predictor features i = .ok v := by
  obtain ⟨z, hz, hr, hc, hent⟩ := compute_z_ok self features hW
  refine ⟨z, Spec.eta self features i, hz, hr, hc, ?_, linear_predictor_ok self features i hi hW⟩
  simp [SGMatrix.get_element, hr, hc, hi, hent 0 i Nat.zero_lt_one]

theorem C9_same_linear_predictor_witness :
    ∃ (z : SGMatrix ℝ) (v : ℝ),
      GLM.compute_z (long_model ℝ) ⟨⟨2, 3, fun k c => (k : ℝ) + c⟩⟩ = .ok z
      ∧ z.num_rows = 1
      ∧ z.num_cols = (⟨⟨2, 3, fun k c => (k : ℝ) + c⟩⟩ : DenseFeatures ℝ).get_num_vectors
      ∧ z.get_element 0 2 = .ok v
      ∧ (long_model ℝ).linear_predictor ⟨⟨2, 3, fun k c => (k : ℝ) + c⟩⟩ 2 = .ok v :=
  C9_same_linear_predictor (long_model ℝ) ⟨⟨2, 3, fun k c => (k : ℝ) + c⟩⟩
    (by decide) 2 (by decide)

/-- C10, as stated, fails: with N = 1 sample of dimension D = 1 and one label the
documented preconditions hold, yet with a weight vector of length 2 both
`GLM::log_likelihood` and `GLM::log_likelihood_derivative` fail on operands of
different dimensions and return no value. -/
theorem C10_weight_length_mismatch_fails :
    0 < (zero_features ℝ 1).get_num_vectors
      ∧ (zero_labels ℝ 1).get_num_labels = (zero_features ℝ 1).get_num_vectors
      ∧ GLM.log_likelihood Real.exp Real.log (long_model ℝ) (zero_features ℝ 1)
          (zero_labels ℝ 1) = .error .DimensionMismatch
      ∧ GLM.log_likelihood_derivative Real.exp Real.log (long_model ℝ) (zero_features ℝ 1)
          (zero_labels ℝ 1) = .error .DimensionMismatch := by
  refine ⟨by decide, by decide, ?_, ?_⟩
  · simp [GLM.log_likelihood, GLM.compute_lambda, GLM.linear_predictor, ASSERT,
      DenseFeatures.get_feature_vector, linalg.dot, SGVector.vlen, SGVector.create,
      zero_features, zero_labels, long_model, GLM.get_w, DenseFeatures.get_num_vectors,
      DenseFeatures.get_num_features, Labels.get_num_labels, List.range_succ, error_bind,
      ok_bind]
  · simp [GLM.log_likelihood_derivative, GLM.compute_z, ASSERT, SGMatrix.of_vector,
      linalg.matrix_prod, SGVector.vlen, zero_features, zero_labels, long_model, GLM.get_w,
      DenseFeatures.get_num_vectors, DenseFeatures.get_feature_matrix,
      Labels.get_num_labels, error_bind, ok_bind]

/-- C10, amended: when N > 0, the label count is N and the weight vector has length
D, no operation inside `GLM::log_likelihood` or `GLM::log_likelihood_derivative` fails
and both calls return a value. -/
theorem C10_calls_return_when_dimensions_agree (self : GLM ℝ) (features : DenseFeatures ℝ)
    (label : Labels ℝ) (hN : 0 < features.get_num_vectors)
    (hL : label.get_num_labels = features.get_num_vectors)
    (hW : self.get_w.vlen = features.get_num_features) :
    (∃ v : ℝ, GLM.log_likelihood Real.exp Real.log self features label = .ok v)
      ∧ ∃ result : SGVector ℝ,
          GLM.log_likelihood_derivative Real.exp Real.log self features label = .ok result :=
  ⟨⟨_, log_likelihood_ok _ _ self features label hN hL hW⟩,
    ⟨_, log_likelihood_derivative_ok _ _ self features label hN hL hW⟩⟩

theorem C10_calls_return_when_dimensions_agree_witness :
    (∃ v : ℝ, GLM.log_likelihood Real.exp Real.log (long_model ℝ)
        ⟨⟨2, 1, fun _ _ => 5⟩⟩ ⟨[7]⟩ = .ok v)
      ∧ ∃ result : SGVector ℝ,
          GLM.log_likelihood_derivative Real.exp Real.log (long_model ℝ)
            ⟨⟨2, 1, fun _ _ => 5⟩⟩ ⟨[7]⟩ = .ok result :=
  C10_calls_return_when_dimensions_agree (long_model ℝ) ⟨⟨2, 1, fun _ _ => 5⟩⟩ ⟨[7]⟩
    (by decide) (by decide) (by decide)

end shogun
